import Mathlib

/-!
Verification of the RAG system's core contracts: chunking, threshold
retrieval, pipeline orchestration, and the interactive menu loop of
`main.py`.  Components whose implementation files are not part of the
repository snapshot (chunker, vector store, pipeline) are modelled from
the specification; `main.py` is embedded directly.
-/

namespace Rag

set_option maxRecDepth 40000

/-- Modelled from the spec: a Document record `{text, metadata, source_id}`
(the loader module `src/document_processor.py` is absent from the snapshot).
Text is a list of characters so that chunk sizes are character counts. -/
structure Document where
  text : List Char
  source_id : Nat
  metadata : List (String × String)
deriving DecidableEq

/-- Modelled from the spec: a Chunk record
`{text, source_document_id, chunk_index, metadata}`
(the chunker module `src/chunking.py` is absent from the snapshot). -/
structure Chunk where
  text : List Char
  source_document_id : Nat
  chunk_index : Nat
  metadata : List (String × String)
deriving DecidableEq

/-- Structural worker for `chunkList`: `fuel` bounds the recursion depth.
Each step consumes at least one character whenever `O < S`, so a fuel of
the text's length is always sufficient and the fuel-exhausted branch is
never taken within the spec's parameter range. -/
def chunkListAux (S O : Nat) : Nat → List Char → List (List Char)
  | 0, cs => [cs]
  | fuel + 1, cs =>
    if cs.length ≤ S ∨ S ≤ O then [cs]
    else cs.take S :: chunkListAux S O fuel (cs.drop (S - O))

/-- Modelled from the spec: recursive size-based chunking of a character
sequence with target chunk size `S` and overlap `O` (`0 ≤ O < S`): a text of
at most `S` characters is a single chunk; otherwise the first chunk is the
first `S` characters and chunking continues `S - O` characters further on, so
consecutive chunks share exactly `O` characters.  The degenerate guard
`S ≤ O` only forces termination and is outside the spec's parameter range. -/
def chunkList (S O : Nat) (cs : List Char) : List (List Char) :=
  chunkListAux S O cs.length cs

/-- The overlap relation between consecutive chunks: the last `O` characters
of the first chunk are exactly the first `O` characters of the second, and
that shared text really has `O` characters. -/
def overlapRel (O : Nat) (c1 c2 : List Char) : Prop :=
  c1.drop (c1.length - O) = c2.take O ∧ (c2.take O).length = O

theorem chunkListAux_of_le (S O fuel : Nat) (cs : List Char)
    (h : cs.length ≤ S) : chunkListAux S O fuel cs = [cs] := by
  cases fuel with
  | zero => rfl
  | succ fuel => rw [chunkListAux, if_pos (Or.inl h)]

theorem chunkListAux_chunk_le (S O : Nat) (hO : O < S) :
    ∀ (fuel : Nat) (cs : List Char), cs.length ≤ fuel →
      ∀ c ∈ chunkListAux S O fuel cs, c.length ≤ S := by
  intro fuel
  induction fuel with
  | zero =>
    intro cs hf c hc
    rw [chunkListAux] at hc
    simp only [List.mem_singleton] at hc
    subst hc
    omega
  | succ fuel ih =>
    intro cs hf c hc
    rw [chunkListAux] at hc
    by_cases h : cs.length ≤ S ∨ S ≤ O
    · rw [if_pos h] at hc
      simp only [List.mem_singleton] at hc
      subst hc
      rcases h with h | h
      · exact h
      · omega
    · rw [if_neg h] at hc
      push_neg at h
      rcases List.mem_cons.mp hc with hc | hc
      · subst hc
        simp [List.length_take]
      · refine ih (cs.drop (S - O)) ?_ c hc
        rw [List.length_drop]
        omega

theorem chunkListAux_cons_take (S O fuel : Nat) (hO : O < S)
    (cs : List Char) (hf : cs.length ≤ fuel) :
    ∃ t, chunkListAux S O fuel cs = cs.take S :: t := by
  cases fuel with
  | zero =>
    have h0 : cs.length ≤ S := by omega
    exact ⟨[], by rw [chunkListAux, List.take_of_length_le h0]⟩
  | succ fuel =>
    rw [chunkListAux]
    split
    · rename_i h
      rcases h with h | h
      · exact ⟨[], by rw [List.take_of_length_le h]⟩
      · omega
    · exact ⟨_, rfl⟩

theorem chunkListAux_chain (S O : Nat) (hO : O < S) :
    ∀ (fuel : Nat) (cs : List Char), cs.length ≤ fuel →
      List.Chain' (overlapRel O) (chunkListAux S O fuel cs) := by
  intro fuel
  induction fuel with
  | zero =>
    intro cs hf
    rw [chunkListAux]
    exact List.chain'_singleton cs
  | succ fuel ih =>
    intro cs hf
    rw [chunkListAux]
    by_cases h : cs.length ≤ S ∨ S ≤ O
    · rw [if_pos h]
      exact List.chain'_singleton cs
    · rw [if_neg h]
      push_neg at h
      obtain ⟨hS, hOS⟩ := h
      have hdf : (cs.drop (S - O)).length ≤ fuel := by
        rw [List.length_drop]
        omega
      obtain ⟨t, ht⟩ := chunkListAux_cons_take S O fuel hO
        (cs.drop (S - O)) hdf
      rw [ht]
      have hchain := ih (cs.drop (S - O)) hdf
      rw [ht] at hchain
      refine List.chain'_cons.mpr ⟨?_, hchain⟩
      constructor
      · rw [List.length_take]
        have hmin : S ⊓ cs.length = S := Nat.min_eq_left (Nat.le_of_lt hS)
        rw [hmin, List.drop_take, List.take_take]
        have h1 : S - (S - O) = O := by omega
        have h2 : O ⊓ S = O := Nat.min_eq_left (Nat.le_of_lt hO)
        rw [h1, h2]
      · rw [List.take_take, Nat.min_eq_left (Nat.le_of_lt hO),
          List.length_take, List.length_drop]
        omega

/-- C2: recursive size-based chunking with size `S > 0` and overlap
`0 ≤ O < S` produces chunks of at most `S` characters, consecutive chunks
share exactly `O` characters of overlapping text, and a document shorter
than `S` yields exactly one chunk. -/
theorem chunking_size_overlap_single (S O : Nat) (cs : List Char)
    (hS : 0 < S) (hO : O < S) :
    (∀ c ∈ chunkList S O cs, c.length ≤ S) ∧
    List.Chain' (overlapRel O) (chunkList S O cs) ∧
    (cs.length < S → chunkList S O cs = [cs]) := by
  refine ⟨chunkListAux_chunk_le S O hO cs.length cs le_rfl,
    chunkListAux_chain S O hO cs.length cs le_rfl, ?_⟩
  intro hlt
  exact chunkListAux_of_le S O cs.length cs (Nat.le_of_lt hlt)

/-- Modelled from the spec: a ScoredChunk pairs a chunk with its similarity
score (scores live in `ℚ`, standing for the real-valued scores; only their
ordering matters to the retrieval contract). -/
structure ScoredChunk where
  chunk : Chunk
  similarity_score : ℚ
deriving DecidableEq

/-- Modelled from the spec: the vector store holds an indexed collection of
chunks together with the opaque embedding-similarity function of the
collaborator (`src/vector_store.py` is absent from the snapshot). -/
structure VectorStoreManager where
  collection : List Chunk
  similarity : String → Chunk → ℚ

/-- Descending order on scored chunks: the earlier element scores at least
as high as the later one. -/
def scoredDesc (a b : ScoredChunk) : Prop :=
  b.similarity_score ≤ a.similarity_score

instance : DecidableRel scoredDesc := fun a b =>
  inferInstanceAs (Decidable (b.similarity_score ≤ a.similarity_score))

instance : IsTotal ScoredChunk scoredDesc :=
  ⟨fun a b => le_total b.similarity_score a.similarity_score⟩

instance : IsTrans ScoredChunk scoredDesc :=
  ⟨fun _ _ _ h1 h2 => le_trans h2 h1⟩

/-- Modelled from the spec: `search_with_threshold(query, k, threshold)`
scores every indexed chunk, keeps those whose similarity is at least the
threshold, orders them by descending similarity, and returns at most `k`. -/
def search_with_threshold (store : VectorStoreManager) (query : String)
    (k : Nat) (threshold : ℚ) : List ScoredChunk :=
  (List.insertionSort scoredDesc
    ((store.collection.map (fun c => ⟨c, store.similarity query c⟩)).filter
      (fun sc => decide (threshold ≤ sc.similarity_score)))).take k

/-- C1: for every query, every `k ≥ 1` and every threshold in `[0, 1]`,
threshold search returns at most `k` results, every returned result has
similarity at least the threshold, and the results are sorted in descending
order of similarity. -/
theorem search_with_threshold_contract (store : VectorStoreManager)
    (query : String) (k : Nat) (threshold : ℚ)
    (hk : 1 ≤ k) (h0 : 0 ≤ threshold) (h1 : threshold ≤ 1) :
    (search_with_threshold store query k threshold).length ≤ k ∧
    (∀ sc ∈ search_with_threshold store query k threshold,
      threshold ≤ sc.similarity_score) ∧
    List.Sorted scoredDesc (search_with_threshold store query k threshold) := by
  refine ⟨?_, ?_, ?_⟩
  · rw [search_with_threshold, List.length_take]
    exact min_le_left _ _
  · intro sc hsc
    have h2 : sc ∈ List.insertionSort scoredDesc
        ((store.collection.map (fun c => ⟨c, store.similarity query c⟩)).filter
          (fun sc => decide (threshold ≤ sc.similarity_score))) :=
      List.take_subset _ _ hsc
    have h3 := (List.perm_insertionSort scoredDesc _).mem_iff.mp h2
    exact of_decide_eq_true (List.mem_filter.mp h3).2
  · exact List.Pairwise.sublist (List.take_sublist _ _)
      (List.sorted_insertionSort scoredDesc _)

/-- Witness for C1 on a two-chunk store, `k = 2`, threshold `3/10`. -/
theorem search_with_threshold_contract_witness :
    (1 : Nat) ≤ 2 ∧ (0 : ℚ) ≤ 3/10 ∧ (3 : ℚ)/10 ≤ 1 ∧
    ((search_with_threshold
        ⟨[⟨['x'], 1, 0, []⟩, ⟨['y'], 2, 1, []⟩],
         fun _ c => (c.chunk_index : ℚ) / 2⟩ "q" 2 (3/10)).length ≤ 2 ∧
     (∀ sc ∈ search_with_threshold
        ⟨[⟨['x'], 1, 0, []⟩, ⟨['y'], 2, 1, []⟩],
         fun _ c => (c.chunk_index : ℚ) / 2⟩ "q" 2 (3/10),
        (3 : ℚ)/10 ≤ sc.similarity_score) ∧
     List.Sorted scoredDesc (search_with_threshold
        ⟨[⟨['x'], 1, 0, []⟩, ⟨['y'], 2, 1, []⟩],
         fun _ c => (c.chunk_index : ℚ) / 2⟩ "q" 2 (3/10))) :=
  ⟨by decide, by norm_num, by norm_num,
   search_with_threshold_contract
     ⟨[⟨['x'], 1, 0, []⟩, ⟨['y'], 2, 1, []⟩],
      fun _ c => (c.chunk_index : ℚ) / 2⟩ "q" 2 (3/10)
     (by decide) (by norm_num) (by norm_num)⟩

/-- Witness for C2 at `S = 5`, `O = 2` on a 7-character text. -/
theorem chunking_size_overlap_single_witness :
    (0 : Nat) < 5 ∧ 2 < 5 ∧
    ((∀ c ∈ chunkList 5 2 ['a', 'b', 'c', 'd', 'e', 'f', 'g'], c.length ≤ 5) ∧
     List.Chain' (overlapRel 2) (chunkList 5 2 ['a', 'b', 'c', 'd', 'e', 'f', 'g']) ∧
     (List.length ['a', 'b', 'c', 'd', 'e', 'f', 'g'] < 5 →
       chunkList 5 2 ['a', 'b', 'c', 'd', 'e', 'f', 'g'] =
         [['a', 'b', 'c', 'd', 'e', 'f', 'g']])) :=
  ⟨by decide, by decide,
   chunking_size_overlap_single 5 2 ['a', 'b', 'c', 'd', 'e', 'f', 'g']
     (by decide) (by decide)⟩

/-- Pipeline orchestration states from the spec's state machine. -/
inductive PipelineStage
  | empty
  | loaded
  | indexed
deriving DecidableEq

/-- Modelled from the spec: the pipeline error kinds relevant here
(`src/rag_pipeline.py` is absent from the snapshot). -/
inductive RAGError
  | notLoaded
  | notIndexed
  | generation (msg : String)
deriving DecidableEq

/-- Human-readable message of a pipeline error. -/
def RAGError.describe : RAGError → String
  | .notLoaded => "no documents loaded"
  | .notIndexed => "documents not processed"
  | .generation m => m

/-- Modelled from the spec: the RAG pipeline state — configured chunking
parameters, the held document set, the indexed chunk collection, the
orchestration stage, and the two external collaborators (embedding
similarity and the fallible language-model generator). -/
structure RAGPipeline where
  chunk_size : Nat
  chunk_overlap : Nat
  documents : List Document
  chunks : List Chunk
  stage : PipelineStage
  similarity : String → Chunk → ℚ
  generate : String → List Chunk → Except String String

/-- Modelled from the spec: chunking a document list — every chunk carries
its source document's id and metadata and a strategy-local chunk index. -/
def chunk_documents (S O : Nat) (docs : List Document) : List Chunk :=
  docs.flatMap (fun d =>
    (chunkList S O d.text).enum.map (fun p =>
      ⟨p.2, d.source_id, p.1, d.metadata⟩))

/-- Modelled from the spec: `load` replaces the held document set entirely
and moves the pipeline to the Loaded stage, returning the count loaded. -/
def load_documents (p : RAGPipeline) (docs : List Document) :
    RAGPipeline × Nat :=
  ({ p with documents := docs, stage := PipelineStage.loaded }, docs.length)

/-- Modelled from the spec: `process` requires loaded documents (otherwise
`NotLoadedError`), runs the chunker, indexes the chunks, moves to Indexed,
and returns the chunk count. -/
def process_documents (p : RAGPipeline) :
    Except RAGError (RAGPipeline × Nat) :=
  if p.documents = [] then Except.error RAGError.notLoaded
  else
    Except.ok
      ({ p with
          chunks := chunk_documents p.chunk_size p.chunk_overlap p.documents,
          stage := PipelineStage.indexed },
       (chunk_documents p.chunk_size p.chunk_overlap p.documents).length)

/-- A source reference inside a QueryResult: document id, content excerpt
and metadata. -/
structure SourceRef where
  document : Nat
  content : List Char
  metadata : List (String × String)
deriving DecidableEq

/-- The structured result of one query. -/
structure QueryResult where
  question : String
  answer : String
  sources : List SourceRef
  num_sources : Nat
deriving DecidableEq

/-- Modelled from the spec: `query` requires the Indexed stage (otherwise
`NotIndexedError`), retrieves the top-`k` chunks above the threshold,
asks the generator with that context, and assembles a QueryResult whose
sources follow retrieval order. -/
def query (p : RAGPipeline) (question : String) (k : Nat) (threshold : ℚ) :
    Except RAGError QueryResult :=
  if p.stage ≠ PipelineStage.indexed then Except.error RAGError.notIndexed
  else
    match p.generate question
      ((search_with_threshold ⟨p.chunks, p.similarity⟩ question k
        threshold).map (fun sc => sc.chunk)) with
    | Except.error e => Except.error (RAGError.generation e)
    | Except.ok ans =>
        Except.ok
          { question := question
            answer := ans
            sources := (search_with_threshold ⟨p.chunks, p.similarity⟩
              question k threshold).map (fun sc =>
                ⟨sc.chunk.source_document_id, sc.chunk.text,
                 sc.chunk.metadata⟩)
            num_sources := (search_with_threshold ⟨p.chunks, p.similarity⟩
              question k threshold).length }

/-- The error marker carried by a failed batch entry. -/
def errorResult (question : String) (e : RAGError) : QueryResult :=
  { question := question
    answer := "Error: " ++ e.describe
    sources := []
    num_sources := 0 }

/-- Modelled from the spec: `batch_query` answers each question
independently and in input order; a failing entry yields its error marker
instead of aborting the batch. -/
def batch_query (p : RAGPipeline) (questions : List String) (k : Nat)
    (threshold : ℚ) : List QueryResult :=
  questions.map (fun q =>
    match query p q k threshold with
    | Except.ok r => r
    | Except.error e => errorResult q e)

/-- Modelled from the spec: `reset` clears the documents and the indexed
collection and returns to the Empty stage in one step. -/
def reset_pipeline (p : RAGPipeline) : RAGPipeline :=
  { p with
      documents := []
      chunks := []
      stage := PipelineStage.empty }

/-- The aggregate statistics record, recomputed on demand. -/
structure PipelineStats where
  documents_loaded : Nat
  chunks_created : Nat
  total_characters : Nat
  average_chunk_size : ℚ
  collection_count : Nat
deriving DecidableEq

/-- Modelled from the spec: `stats` recomputes the aggregate counters from
the current pipeline state. -/
def get_pipeline_stats (p : RAGPipeline) : PipelineStats :=
  { documents_loaded := p.documents.length
    chunks_created := p.chunks.length
    total_characters := (p.chunks.map (fun c => c.text.length)).sum
    average_chunk_size :=
      if p.chunks.length = 0 then 0
      else ((p.chunks.map (fun c => c.text.length)).sum : ℚ) / p.chunks.length
    collection_count := p.chunks.length }

/-- The all-zero statistics record. -/
def zeroStats : PipelineStats := ⟨0, 0, 0, 0, 0⟩

/-- A freshly constructed pipeline with the default chunking parameters and
trivial collaborators, used as the concrete test fixture. -/
def emptyPipeline : RAGPipeline :=
  { chunk_size := 500
    chunk_overlap := 100
    documents := []
    chunks := []
    stage := PipelineStage.empty
    similarity := fun _ _ => 1
    generate := fun _ _ => Except.ok "answer" }

/-- A 1000-character document. -/
def docA : Document := ⟨List.replicate 1000 'a', 1, []⟩

/-- A 200-character document. -/
def docB : Document := ⟨List.replicate 200 'b', 2, []⟩

/-- The fixture pipeline with one document loaded. -/
def loadedPipeline : RAGPipeline := (load_documents emptyPipeline [docA]).1

/-- C5: `process` on a pipeline without loaded documents signals
`NotLoadedError` rather than silently doing nothing; with at least one
loaded document it chunks, indexes, moves to the Indexed stage and returns
the number of chunks created. -/
theorem process_documents_contract (p : RAGPipeline) :
    (p.documents = [] →
      process_documents p = Except.error RAGError.notLoaded) ∧
    (p.documents ≠ [] →
      process_documents p =
        Except.ok
          ({ p with
              chunks := chunk_documents p.chunk_size p.chunk_overlap
                p.documents,
              stage := PipelineStage.indexed },
           (chunk_documents p.chunk_size p.chunk_overlap
             p.documents).length)) := by
  constructor
  · intro h
    rw [process_documents, if_pos h]
  · intro h
    rw [process_documents, if_neg h]

/-- Witness for C5: the error case on the fresh fixture, the success case
on the loaded fixture. -/
theorem process_documents_contract_witness :
    process_documents emptyPipeline = Except.error RAGError.notLoaded ∧
    process_documents loadedPipeline =
      Except.ok
        ({ loadedPipeline with
            chunks := chunk_documents loadedPipeline.chunk_size
              loadedPipeline.chunk_overlap loadedPipeline.documents,
            stage := PipelineStage.indexed },
         (chunk_documents loadedPipeline.chunk_size
           loadedPipeline.chunk_overlap loadedPipeline.documents).length) :=
  ⟨(process_documents_contract emptyPipeline).1 rfl,
   (process_documents_contract loadedPipeline).2 (by decide)⟩

/-- C6: `reset` clears both the loaded document set and the indexed chunk
collection and returns the pipeline to the Empty stage in a single atomic
step (one total function application, so no intermediate state with only
one of the two cleared is ever produced), and the statistics computed after
a reset are all zero. -/
theorem reset_pipeline_clears (p : RAGPipeline) :
    (reset_pipeline p).documents = [] ∧
    (reset_pipeline p).chunks = [] ∧
    (reset_pipeline p).stage = PipelineStage.empty ∧
    get_pipeline_stats (reset_pipeline p) = zeroStats :=
  ⟨rfl, rfl, rfl, rfl⟩

/-- C7: a query answered in the Indexed stage yields a QueryResult carrying
the original question, whose `num_sources` counts its sources, and whose
sources are the retrieved chunks' document ids, excerpts and metadata in
retrieval order. -/
theorem query_result_shape (p : RAGPipeline) (question : String) (k : Nat)
    (threshold : ℚ) (r : QueryResult)
    (hstage : p.stage = PipelineStage.indexed)
    (h : query p question k threshold = Except.ok r) :
    r.question = question ∧
    r.num_sources = r.sources.length ∧
    r.sources =
      (search_with_threshold ⟨p.chunks, p.similarity⟩ question k
        threshold).map (fun sc =>
          ⟨sc.chunk.source_document_id, sc.chunk.text, sc.chunk.metadata⟩) := by
  rw [query] at h
  rw [if_neg (by simp [hstage])] at h
  cases hg : p.generate question
      ((search_with_threshold ⟨p.chunks, p.similarity⟩ question k
        threshold).map (fun sc => sc.chunk)) with
  | error e =>
    rw [hg] at h
    exact absurd h (by simp)
  | ok ans =>
    rw [hg] at h
    rw [Except.ok.injEq] at h
    subst h
    refine ⟨rfl, ?_, rfl⟩
    simp [List.length_map]

instance {ε α : Type} [DecidableEq ε] [DecidableEq α] :
    DecidableEq (Except ε α) := fun a b =>
  match a, b with
  | Except.ok x, Except.ok y =>
      if h : x = y then isTrue (by rw [h])
      else isFalse (fun hc => h (Except.ok.inj hc))
  | Except.error x, Except.error y =>
      if h : x = y then isTrue (by rw [h])
      else isFalse (fun hc => h (Except.error.inj hc))
  | Except.ok _, Except.error _ => isFalse (fun hc => Except.noConfusion hc)
  | Except.error _, Except.ok _ => isFalse (fun hc => Except.noConfusion hc)

/-- A one-chunk fixture chunk. -/
def tinyChunk : Chunk := ⟨['a'], 7, 0, []⟩

/-- A fixture pipeline already in the Indexed stage over one chunk. -/
def indexedTinyPipeline : RAGPipeline :=
  { chunk_size := 500
    chunk_overlap := 100
    documents := []
    chunks := [tinyChunk]
    stage := PipelineStage.indexed
    similarity := fun _ _ => 1
    generate := fun _ _ => Except.ok "ans" }

/-- Witness for C7 on the one-chunk indexed fixture. -/
theorem query_result_shape_witness :
    QueryResult.question ⟨"q", "ans", [⟨7, ['a'], []⟩], 1⟩ = "q" ∧
    QueryResult.num_sources ⟨"q", "ans", [⟨7, ['a'], []⟩], 1⟩ =
      (QueryResult.sources ⟨"q", "ans", [⟨7, ['a'], []⟩], 1⟩).length ∧
    QueryResult.sources ⟨"q", "ans", [⟨7, ['a'], []⟩], 1⟩ =
      (search_with_threshold
        ⟨indexedTinyPipeline.chunks, indexedTinyPipeline.similarity⟩
        "q" 1 0).map (fun sc =>
          ⟨sc.chunk.source_document_id, sc.chunk.text, sc.chunk.metadata⟩) :=
  query_result_shape indexedTinyPipeline "q" 1 0
    ⟨"q", "ans", [⟨7, ['a'], []⟩], 1⟩ rfl (by decide)

/-- C4: `batch_query` preserves the input question list's length and order
(the i-th output entry is the result for the i-th question), and a failure
on one question does not abort the batch: that entry carries the error
marker while every other entry is the normal per-question result. -/
theorem batch_query_contract (p : RAGPipeline) (questions : List String)
    (k : Nat) (threshold : ℚ) :
    (batch_query p questions k threshold).length = questions.length ∧
    (∀ (i : Nat) (hi : i < questions.length), ∀ r : QueryResult,
      query p questions[i] k threshold = Except.ok r →
      (batch_query p questions k threshold)[i]? = some r) ∧
    (∀ (i : Nat) (hi : i < questions.length), ∀ e : RAGError,
      query p questions[i] k threshold = Except.error e →
      (batch_query p questions k threshold)[i]? =
        some (errorResult questions[i] e)) := by
  refine ⟨by simp [batch_query], ?_, ?_⟩
  · intro i hi r h
    rw [batch_query, List.getElem?_map, List.getElem?_eq_getElem hi,
      Option.map_some']
    rw [h]
  · intro i hi e h
    rw [batch_query, List.getElem?_map, List.getElem?_eq_getElem hi,
      Option.map_some']
    rw [h]

/-- An indexed fixture pipeline whose generator fails on the question
"bad" and succeeds on every other question. -/
def partialFailurePipeline : RAGPipeline :=
  { chunk_size := 500
    chunk_overlap := 100
    documents := []
    chunks := [tinyChunk]
    stage := PipelineStage.indexed
    similarity := fun _ _ => 1
    generate := fun q _ =>
      if q = "bad" then Except.error "boom" else Except.ok "fine" }

/-- Witness for C4: a two-question batch where the second question fails;
the first entry is its normal result, the second carries the error marker,
and the batch has both entries. -/
theorem batch_query_contract_witness :
    (batch_query partialFailurePipeline ["good", "bad"] 1 0).length =
      (["good", "bad"] : List String).length ∧
    (batch_query partialFailurePipeline ["good", "bad"] 1 0)[0]? =
      some ⟨"good", "fine", [⟨7, ['a'], []⟩], 1⟩ ∧
    (batch_query partialFailurePipeline ["good", "bad"] 1 0)[1]? =
      some (errorResult "bad" (RAGError.generation "boom")) :=
  ⟨(batch_query_contract partialFailurePipeline ["good", "bad"] 1 0).1,
   (batch_query_contract partialFailurePipeline ["good", "bad"] 1 0).2.1
     0 (by decide) ⟨"good", "fine", [⟨7, ['a'], []⟩], 1⟩ (by decide),
   (batch_query_contract partialFailurePipeline ["good", "bad"] 1 0).2.2
     1 (by decide) (RAGError.generation "boom") (by decide)⟩

/-- The C3 end-to-end fixture: the empty fixture pipeline after loading
the 1000-character and the 200-character documents. -/
def loadedExamplePipeline : RAGPipeline :=
  (load_documents emptyPipeline [docA, docB]).1

/-- Chunk count returned by a `process` outcome (zero on error). -/
def chunkCountOf (r : Except RAGError (RAGPipeline × Nat)) : Nat :=
  match r with
  | Except.ok pr => pr.2
  | Except.error _ => 0

/-- Pipeline state after a `process` outcome (unchanged on error). -/
def pipelineAfter (r : Except RAGError (RAGPipeline × Nat))
    (p : RAGPipeline) : RAGPipeline :=
  match r with
  | Except.ok pr => pr.1
  | Except.error _ => p

/-- The C3 fixture after `process`. -/
def processedExample : Except RAGError (RAGPipeline × Nat) :=
  process_documents loadedExamplePipeline

/-- The C3 fixture pipeline in the Indexed stage. -/
def indexedExamplePipeline : RAGPipeline :=
  pipelineAfter processedExample loadedExamplePipeline

/-- `num_sources` of a query outcome (zero on error). -/
def numSourcesOf (r : Except RAGError QueryResult) : Nat :=
  match r with
  | Except.ok q => q.num_sources
  | Except.error _ => 0

/-- C3 counterexample: chunking the 1000- and 200-character documents with
chunk size 500 and overlap 100 produces 4 chunks in total, not 3 as the
claim states (3 come from the long document and 1 from the short one, and
3 + 1 = 4). -/
theorem end_to_end_total_not_three :
    chunkCountOf processedExample ≠ 3 ∧
    chunkCountOf processedExample = 4 :=
  have h : chunkCountOf processedExample = 4 := by decide
  ⟨by rw [h]; decide, h⟩

/-- C3 amended: loading the 1000- and 200-character documents and chunking
with size 500 / overlap 100 produces 4 chunks in total — 3 from the
1000-character document and 1 from the 200-character document — and after
`process`, `query "x" 2 0` succeeds with `num_sources ≤ 2`. -/
theorem end_to_end_amended :
    chunkCountOf processedExample = 4 ∧
    (indexedExamplePipeline.chunks.filter
      (fun c => decide (c.source_document_id = 1))).length = 3 ∧
    (indexedExamplePipeline.chunks.filter
      (fun c => decide (c.source_document_id = 2))).length = 1 ∧
    Except.isOk (query indexedExamplePipeline "x" 2 0) = true ∧
    numSourcesOf (query indexedExamplePipeline "x" 2 0) ≤ 2 := by
  refine ⟨by decide, by decide, by decide, by decide, by decide⟩

/-!
Embedding of `src/main.py`: the interactive menu dispatch of
`RAGApplication.run`, the inner prompt of `load_documents_menu`, the
exception handling of the interactive loop, and the exit codes of `main`.
-/

/-- The handlers `RAGApplication.run` dispatches to, plus the exit action
and the invalid-choice branch. -/
inductive MenuAction
  | loadDocumentsMenu
  | processDocumentsMenu
  | askQuestionMenu
  | askMultipleQuestionsMenu
  | viewStatistics
  | resetPipeline
  | viewConfiguration
  | exitApp
  | invalidChoice
deriving DecidableEq

/-- The if/elif chain on the stripped choice string in
`RAGApplication.run` (`src/main.py`): choices "1" and "2" both dispatch to
`load_documents_menu`, "9" exits, anything else is invalid. -/
def menuDispatch (choice : String) : MenuAction :=
  if choice = "1" then MenuAction.loadDocumentsMenu
  else if choice = "2" then MenuAction.loadDocumentsMenu
  else if choice = "3" then MenuAction.processDocumentsMenu
  else if choice = "4" then MenuAction.askQuestionMenu
  else if choice = "5" then MenuAction.askMultipleQuestionsMenu
  else if choice = "6" then MenuAction.viewStatistics
  else if choice = "7" then MenuAction.resetPipeline
  else if choice = "8" then MenuAction.viewConfiguration
  else if choice = "9" then MenuAction.exitApp
  else MenuAction.invalidChoice

/-- What the second prompt inside `load_documents_menu` selects. -/
inductive LoadChoice
  | fromDirectory
  | fromFile
  | invalidLoad
deriving DecidableEq

/-- The inner choice of `load_documents_menu` (`src/main.py`): "1" loads
from a directory, "2" loads a single file, anything else is invalid. -/
def loadDocumentsSubmenu (sub : String) : LoadChoice :=
  if sub = "1" then LoadChoice.fromDirectory
  else if sub = "2" then LoadChoice.fromFile
  else LoadChoice.invalidLoad

/-- How one handler invocation ends: normally, with an exception caught by
the loop's `except Exception` arm, or with a `KeyboardInterrupt`. -/
inductive HandlerOutcome
  | ok
  | raisesException
  | raisesKeyboardInterrupt
deriving DecidableEq

/-- One interactive-loop iteration of the input script: the menu choice
entered and how the dispatched handler ends. -/
structure MenuEvent where
  choice : String
  outcome : HandlerOutcome
deriving DecidableEq

/-- The effect of one loop iteration. -/
inductive StepResult
  | exitNormal
  | breakInterrupted
  | continueLoop
deriving DecidableEq

/-- One iteration of the `while True` loop in `RAGApplication.run`: choice
"9" breaks out normally; an invalid choice prints and continues; a handler
that raises `KeyboardInterrupt` breaks out of the loop; a handler that
raises any other exception is caught, printed, and the loop continues. -/
def runStep (c : String) (o : HandlerOutcome) : StepResult :=
  match menuDispatch c with
  | MenuAction.exitApp => StepResult.exitNormal
  | MenuAction.invalidChoice => StepResult.continueLoop
  | _ =>
    match o with
    | HandlerOutcome.raisesKeyboardInterrupt => StepResult.breakInterrupted
    | _ => StepResult.continueLoop

/-- How `RAGApplication.run` returns. -/
inductive LoopExit
  | exitChoice
  | interrupted
  | inputExhausted
deriving DecidableEq

/-- The interactive loop over an input script.  An exhausted script models
`input()` raising at the prompt, which happens outside the loop's `try`
block and so propagates out of `run`. -/
def runLoop : List MenuEvent → LoopExit
  | [] => LoopExit.inputExhausted
  | e :: rest =>
    match runStep e.choice e.outcome with
    | StepResult.exitNormal => LoopExit.exitChoice
    | StepResult.breakInterrupted => LoopExit.interrupted
    | StepResult.continueLoop => runLoop rest

/-- Whether `RAGApplication.__init__` succeeds; it raises when
configuration loading fails (for example a missing API credential). -/
inductive InitOutcome
  | success
  | failure
deriving DecidableEq

/-- The `main()` entry point of `src/main.py`: any exception — an
initialization failure or an error escaping `run` — is caught and the
process exits with code 1 via `sys.exit(1)`; otherwise `main` returns and
the process exits with code 0. -/
def mainExitCode (init : InitOutcome) (script : List MenuEvent) : Nat :=
  match init with
  | InitOutcome.failure => 1
  | InitOutcome.success =>
    match runLoop script with
    | LoopExit.exitChoice => 0
    | LoopExit.interrupted => 0
    | LoopExit.inputExhausted => 1

/-- C8: the application exits with code 0 on a normal exit (the user
choosing the exit action) and with a non-zero exit code when
initialization fails fatally. -/
theorem main_exit_codes (script : List MenuEvent) :
    mainExitCode InitOutcome.failure script ≠ 0 ∧
    (runLoop script = LoopExit.exitChoice →
      mainExitCode InitOutcome.success script = 0) := by
  constructor
  · intro h
    exact absurd h (by rw [mainExitCode]; decide)
  · intro h
    rw [mainExitCode, h]

/-- Witness for C8: a script that immediately chooses "9". -/
theorem main_exit_codes_witness :
    mainExitCode InitOutcome.failure [⟨"9", HandlerOutcome.ok⟩] ≠ 0 ∧
    mainExitCode InitOutcome.success [⟨"9", HandlerOutcome.ok⟩] = 0 :=
  ⟨(main_exit_codes [⟨"9", HandlerOutcome.ok⟩]).1,
   (main_exit_codes [⟨"9", HandlerOutcome.ok⟩]).2 (by decide)⟩

/-- C9: menu choices "1" and "2" dispatch to the exact same handler
`load_documents_menu`, so the two top-level options behave identically on
every input script; only the second prompt inside that handler
distinguishes directory loading from single-file loading. -/
theorem menu_choices_one_two_same_handler :
    menuDispatch "1" = MenuAction.loadDocumentsMenu ∧
    menuDispatch "2" = MenuAction.loadDocumentsMenu ∧
    (∀ (o : HandlerOutcome) (rest : List MenuEvent),
      runLoop (⟨"1", o⟩ :: rest) = runLoop (⟨"2", o⟩ :: rest)) ∧
    loadDocumentsSubmenu "1" = LoadChoice.fromDirectory ∧
    loadDocumentsSubmenu "2" = LoadChoice.fromFile := by
  refine ⟨by decide, by decide, ?_, by decide, by decide⟩
  intro o rest
  rfl

theorem runStep_eq_exitNormal_iff (c : String) (o : HandlerOutcome) :
    runStep c o = StepResult.exitNormal ↔
      menuDispatch c = MenuAction.exitApp := by
  cases o <;> cases hd : menuDispatch c <;> simp [runStep, hd]

theorem runStep_eq_breakInterrupted (c : String) (o : HandlerOutcome)
    (h : runStep c o = StepResult.breakInterrupted) :
    o = HandlerOutcome.raisesKeyboardInterrupt := by
  cases o <;> try rfl
  all_goals exfalso
  all_goals cases hd : menuDispatch c <;> simp [runStep, hd] at h

/-- C10: an exception raised by a menu handler (other than
`KeyboardInterrupt`) is caught and the loop continues with the next
iteration, and the loop only ever terminates through the exit choice or a
`KeyboardInterrupt`: a run that ends normally contains an exit-choice
event, and an interrupted run contains a `KeyboardInterrupt` event — no
pipeline error terminates the session. -/
theorem run_loop_error_isolation (c : String) (rest s : List MenuEvent) :
    (menuDispatch c ≠ MenuAction.exitApp →
      runLoop (⟨c, HandlerOutcome.raisesException⟩ :: rest) = runLoop rest) ∧
    (runLoop s = LoopExit.exitChoice →
      ∃ e ∈ s, menuDispatch e.choice = MenuAction.exitApp) ∧
    (runLoop s = LoopExit.interrupted →
      ∃ e ∈ s, e.outcome = HandlerOutcome.raisesKeyboardInterrupt) := by
  refine ⟨?_, ?_, ?_⟩
  · intro h
    rw [runLoop]
    have hs : runStep c HandlerOutcome.raisesException =
        StepResult.continueLoop := by
      cases hd : menuDispatch c <;>
        first
        | exact absurd hd h
        | simp [runStep, hd]
    rw [hs]
  · induction s with
    | nil => intro h; exact absurd h (by decide)
    | cons e rest ih =>
      intro h
      rw [runLoop] at h
      cases hs : runStep e.choice e.outcome with
      | exitNormal =>
        exact ⟨e, List.mem_cons_self e rest,
          (runStep_eq_exitNormal_iff e.choice e.outcome).mp hs⟩
      | breakInterrupted => rw [hs] at h; simp at h
      | continueLoop =>
        rw [hs] at h
        obtain ⟨e', he', hd'⟩ := ih h
        exact ⟨e', List.mem_cons_of_mem e he', hd'⟩
  · induction s with
    | nil => intro h; exact absurd h (by decide)
    | cons e rest ih =>
      intro h
      rw [runLoop] at h
      cases hs : runStep e.choice e.outcome with
      | exitNormal => rw [hs] at h; simp at h
      | breakInterrupted =>
        exact ⟨e, List.mem_cons_self e rest,
          runStep_eq_breakInterrupted e.choice e.outcome hs⟩
      | continueLoop =>
        rw [hs] at h
        obtain ⟨e', he', ho'⟩ := ih h
        exact ⟨e', List.mem_cons_of_mem e he', ho'⟩

/-- Witness for C10: a raising handler on choice "4" continues the loop;
a "9" script ends normally with its exit event; a `KeyboardInterrupt`
script ends interrupted with its interrupt event. -/
theorem run_loop_error_isolation_witness :
    runLoop [⟨"4", HandlerOutcome.raisesException⟩] = runLoop [] ∧
    (∃ e ∈ [MenuEvent.mk "9" HandlerOutcome.ok],
      menuDispatch e.choice = MenuAction.exitApp) ∧
    (∃ e ∈ [MenuEvent.mk "4" HandlerOutcome.raisesKeyboardInterrupt],
      e.outcome = HandlerOutcome.raisesKeyboardInterrupt) :=
  ⟨(run_loop_error_isolation "4" [] []).1 (by decide),
   (run_loop_error_isolation "4" []
     [MenuEvent.mk "9" HandlerOutcome.ok]).2.1 (by decide),
   (run_loop_error_isolation "4" []
     [MenuEvent.mk "4" HandlerOutcome.raisesKeyboardInterrupt]).2.2
     (by decide)⟩

end Rag
